import Mathlib

/-!
Shallow embedding of the `language-tutor-agent` backend, covering
`src/api/words.py` and `src/services/llm_service.py`.

The word store (`db/words.py`), the pydantic models (`models/words_model.py`,
`models/user.py`), the session registry (`services/user_session_service.py`)
and the agent configuration (`agents/*.py`) are repository code that is not
included under `src/`; those parts are modelled from the specification and
each such definition carries a doc comment saying so.  The HTTP endpoints and
the two service functions in `llm_service.py` are translated directly from
the source.
-/

namespace LanguageTutor

/-- Modelled from the spec: a stored Word record
`{ id, user_id, word, translation, example, created_at }`
(`models/words_model.py` is not under `src/`; the field set is the spec's
data-model section).  `created_at` is a timestamp, modelled as `Nat`. -/
structure Word where
  id : String
  user_id : String
  word : String
  translation : String
  «example» : String
  created_at : Nat
deriving Repr, DecidableEq

/-- Modelled from the spec: the request body of `POST /words`
(WordCreate carries the owner id and the word fields). -/
structure WordCreate where
  user_id : String
  word : String
  translation : String
  «example» : String
deriving Repr, DecidableEq

/-- Modelled from the spec: the request body of `PUT /words/{word_id}` --
optional replacement values for the mutable word fields ("(update fields)"
in the spec's data model; the update does not carry an id or owner). -/
structure WordUpdate where
  word : Option String
  translation : Option String
  «example» : Option String
deriving Repr, DecidableEq

/-- Modelled from the spec: the identity resolved from the auth token;
"only `user_id` is used downstream". -/
structure User where
  user_id : String
deriving Repr, DecidableEq

/-- Result of an endpoint handler: either a successful value or an
`HTTPException(status_code, detail)`. -/
inductive ApiResult (α : Type) where
  | ok : α → ApiResult α
  | httpError : Nat → String → ApiResult α
deriving Repr, DecidableEq

/-- The HTTP status of an endpoint result (200 on success). -/
def ApiResult.status {α : Type} : ApiResult α → Nat
  | .ok _ => 200
  | .httpError s _ => s

/-- The word store, "external persistence: CRUD operations on a per-user word
collection, keyed by word id", modelled as the list of stored words. -/
abbrev WordStore := List Word

/-- Modelled from the spec: `db.words.get_user_words` returns all words of
one user. -/
def get_user_words (store : WordStore) (user_id : String) : List Word :=
  store.filter (fun w => w.user_id == user_id)

/-- Modelled from the spec: `db.words.create_word` inserts a new word for the
user; the store generates a fresh id. -/
def create_word (store : WordStore) (user_id : String) (word : WordCreate)
    (fresh_id : String) (now : Nat) : Word × WordStore :=
  let w : Word :=
    { id := fresh_id, user_id := user_id, word := word.word,
      translation := word.translation, «example» := word.«example»,
      created_at := now }
  (w, store ++ [w])

/-- Modelled from the spec: `db.words.update_word` applies the update to the
word with the given id, keyed by word id, returning the updated word, or
nothing when no such word exists.  The id and owner are not update fields,
so they are preserved. -/
def update_word (store : WordStore) (word_id : String) (updates : WordUpdate) :
    Option Word × WordStore :=
  match store.find? (fun w => w.id == word_id) with
  | none => (none, store)
  | some w =>
      let w' : Word :=
        { w with word := updates.word.getD w.word,
                 translation := updates.translation.getD w.translation,
                 «example» := updates.«example».getD w.«example» }
      (some w', store.map (fun x => if x.id == word_id then w' else x))

/-- Modelled from the spec: `db.words.delete_word` removes the word with the
given id, reporting whether one was removed. -/
def delete_word (store : WordStore) (word_id : String) : Bool × WordStore :=
  if store.any (fun w => w.id == word_id) then
    (true, store.filter (fun w => w.id != word_id))
  else
    (false, store)

/-- `GET /words/{user_id}` (`src/api/words.py`, `get_user_words_endpoint`):
403 when the authenticated user differs from the path user, otherwise the
user's words. -/
def get_user_words_endpoint (store : WordStore) (user_id : String)
    (current_user : User) : ApiResult (List Word) :=
  if current_user.user_id != user_id then
    .httpError 403 "Can only access your own words"
  else
    .ok (get_user_words store user_id)

/-- `POST /words` (`src/api/words.py`, `create_word_endpoint`):
403 when the authenticated user differs from the body's `user_id`, otherwise
the word is created.  The result pairs the HTTP outcome with the store after
the request. -/
def create_word_endpoint (store : WordStore) (word : WordCreate)
    (current_user : User) (fresh_id : String) (now : Nat) :
    ApiResult Word × WordStore :=
  if current_user.user_id != word.user_id then
    (.httpError 403 "Can only create words for yourself", store)
  else
    let r := create_word store word.user_id word fresh_id now
    (.ok r.1, r.2)

/-- `PUT /words/{word_id}` (`src/api/words.py`, `update_word_endpoint`):
the source calls `update_word` first, returns 404 when it yields nothing,
and only then compares the updated word's owner against the authenticated
user, raising 403 on mismatch.  The result pairs the HTTP outcome with the
store after the request. -/
def update_word_endpoint (store : WordStore) (word_id : String)
    (updates : WordUpdate) (current_user : User) :
    ApiResult Word × WordStore :=
  let r := update_word store word_id updates
  match r.1 with
  | none => (.httpError 404 "Word not found", r.2)
  | some updated_word =>
      if updated_word.user_id != current_user.user_id then
        (.httpError 403 "Can only update your own words", r.2)
      else
        (.ok updated_word, r.2)

/-- `DELETE /words/{word_id}` (`src/api/words.py`, `delete_word_endpoint`):
the source lists the *caller's* words, looks the id up there, returns 404
when absent, then deletes and returns 404 again when the store reports no
deletion.  The result pairs the HTTP outcome with the store after the
request. -/
def delete_word_endpoint (store : WordStore) (word_id : String)
    (current_user : User) : ApiResult String × WordStore :=
  let words := get_user_words store current_user.user_id
  match words.find? (fun w => w.id == word_id) with
  | none => (.httpError 404 "Word not found", store)
  | some _ =>
      let r := delete_word store word_id
      if r.1 then
        (.ok "Word deleted successfully", r.2)
      else
        (.httpError 404 "Word not found", r.2)

/-- Modelled from the spec: one usage entry of a suggestion, a pair of the
French example sentence (`fr`, used at `src/api/words.py` line 142) and the
translation (used at line 141). -/
structure WordUsage where
  fr : String
  translation : String
deriving Repr, DecidableEq

/-- Modelled from the spec: the transient WordSuggestion value,
`{ new_words : ordered sequence of string, usages : mapping from word to
usage entry }`; the mapping is modelled as an association list. -/
structure WordSuggestion where
  new_words : List String
  usages : List (String × WordUsage)
deriving Repr, DecidableEq

/-- Python's `dict.get`: the value at the first matching key, else `None`. -/
def WordSuggestion.usagesGet (ws : WordSuggestion) (word : String) :
    Option WordUsage :=
  (ws.usages.find? (fun p => p.1 == word)).map (fun p => p.2)

/-- Modelled from the spec: the body of `POST /dialogue`,
`{user_id, message}`. -/
structure DialogueMessage where
  user_id : String
  message : String
deriving Repr, DecidableEq

/-- Modelled from the spec: the response of `POST /dialogue`,
`{response, suggested_words}`. -/
structure DialogueResponse where
  response : String
  suggested_words : List String
deriving Repr, DecidableEq

/-- A Python coroutine object, as produced by calling an `async def`
function without `await`.  It wraps the outcome that awaiting it would
deliver; as a plain object it exposes no attribute of the would-be result. -/
structure Coroutine (α : Type) where
  awaited : α
deriving Repr, DecidableEq

/-- Python attribute access `c.new_words` on a coroutine object: a coroutine
carries no `new_words` attribute, so the access raises `AttributeError`
whatever the underlying computation would have produced. -/
def Coroutine.attr_new_words {α : Type} (_ : Coroutine α) :
    Except String (List String) :=
  .error "AttributeError: coroutine object has no attribute new_words"

/-- `services.words_service.suggest_new_words_for_user` is an `async def`
(it is awaited at `src/api/words.py` line 127); a call without `await`
returns the coroutine object.  `outcome` is what awaiting it would give:
the suggestion, or the message of a raised exception. -/
def suggest_new_words_for_user (_user_id : String)
    (outcome : Except String WordSuggestion) :
    Coroutine (Except String WordSuggestion) :=
  ⟨outcome⟩

/-- `POST /dialogue` (`src/api/words.py`, `chat_with_ai`): 403 on identity
mismatch; otherwise awaits `run_dialogue_turn` (its outcome is the
`dialogue_result` parameter), then *calls `suggest_new_words_for_user`
without `await`* and reads `.new_words` off the returned coroutine inside a
`try` whose `except Exception` substitutes the empty list; a failure of the
dialogue call becomes a 500. -/
def chat_with_ai (message : DialogueMessage) (current_user : User)
    (dialogue_result : Except String String)
    (suggestion_outcome : Except String WordSuggestion) :
    ApiResult DialogueResponse :=
  if current_user.user_id != message.user_id then
    .httpError 403 "Can only send messages for yourself"
  else
    match dialogue_result with
    | .error e => .httpError 500 ("Failed to process message: " ++ e)
    | .ok ai_response =>
        let word_suggestion :=
          suggest_new_words_for_user message.user_id suggestion_outcome
        let suggested_words :=
          match word_suggestion.attr_new_words with
          | .ok ws => ws
          | .error _ => []
        .ok { response := ai_response, suggested_words := suggested_words }

/-- The loop of `get_new_words_endpoint` (`src/api/words.py` lines 131-145):
for each suggested word, in order, look its usage up with `.get`; words
without a usage entry are skipped, the rest become Word-shaped responses
with the synthetic id `"new_" + word`. -/
def new_word_objs (user_id : String) (ws : WordSuggestion) (now : Nat) :
    List Word :=
  ws.new_words.filterMap (fun word =>
    (ws.usagesGet word).map (fun usage =>
      { id := "new_" ++ word, user_id := user_id, word := word,
        translation := usage.translation, «example» := usage.fr,
        created_at := now }))

/-- `GET /new-words/{user_id}` (`src/api/words.py`, `get_new_words_endpoint`):
403 on identity mismatch; otherwise `suggest_new_words_for_user` is awaited
(`suggestion_outcome` is its outcome), an exception becomes a 500, and a
returned suggestion (a pydantic object, hence truthy and with a `new_words`
attribute) is converted by the loop above. -/
def get_new_words_endpoint (user_id : String) (current_user : User)
    (suggestion_outcome : Except String WordSuggestion) (now : Nat) :
    ApiResult (List Word) :=
  if current_user.user_id != user_id then
    .httpError 403 "Can only access your own new words"
  else
    match suggestion_outcome with
    | .error e => .httpError 500 ("Failed to fetch new words: " ++ e)
    | .ok ws => .ok (new_word_objs user_id ws now)

/-- The result object of a pydantic-ai agent run: its textual `output` and
`all_messages()`, the updated history. -/
structure AgentRunResult where
  output : String
  all_messages : List String
deriving Repr, DecidableEq

/-- `services.llm_service.suggest_new_words` (`src/services/llm_service.py`
lines 10-31): runs `words_agent` (outcome `agent_run`: the run result or the
message of a raised exception), parses its output as JSON and validates it
as a WordSuggestion (`parse` models `json.loads` plus pydantic validation);
any exception is re-raised as `RuntimeError("words_agent failed: ...")`. -/
def suggest_new_words (agent_run : Except String AgentRunResult)
    (parse : String → Except String WordSuggestion) :
    Except String WordSuggestion :=
  match agent_run with
  | .error e => .error ("words_agent failed: " ++ e)
  | .ok result =>
      match parse result.output with
      | .error e => .error ("words_agent failed: " ++ e)
      | .ok parsed_output => .ok parsed_output

/-- A dialogue agent instance, determined by the prompt it was created
with (`agents.dialogue_agent.create_dialogue_agent`). -/
structure DialogueAgent where
  prompt : String
deriving Repr, DecidableEq

/-- `create_dialogue_agent` instantiates a fresh agent from a prompt. -/
def create_dialogue_agent (prompt : String) : DialogueAgent :=
  ⟨prompt⟩

/-- Modelled from the spec: the per-user DialogueSession,
`{ dialogue_agent : lazily-initialized agent instance or absent,
message_history }` (`services/user_session_service.py` is not under
`src/`). -/
structure UserSession where
  dialogue_agent : Option DialogueAgent
  message_history : List String
deriving Repr, DecidableEq

/-- The process-wide session registry: user id to session. -/
abbrev SessionRegistry := List (String × UserSession)

/-- Modelled from the spec: `get_session(user_id)` with get-or-create
semantics — return the existing session, or insert and return an empty
one on first access. -/
def get_session (registry : SessionRegistry) (user_id : String) :
    UserSession × SessionRegistry :=
  match registry.find? (fun p => p.1 == user_id) with
  | some p => (p.2, registry)
  | none =>
      let s : UserSession := { dialogue_agent := none, message_history := [] }
      (s, registry ++ [(user_id, s)])

/-- Modelled from the spec: `json.dumps` on a list of strings — the list
serialized as JSON text (escaping of special characters inside the words is
not modelled). -/
def json_dumps (xs : List String) : String :=
  "[" ++ String.intercalate ", " (xs.map (fun s => "\x22" ++ s ++ "\x22")) ++ "]"

/-- Modelled from the spec: `DIALOGUE_AGENT_PROMPT.format(known_words=...,
new_words=...)` — a fixed template (`agents/agents_config.py` is not under
`src/`) with the two serialized word lists substituted into it. -/
def DIALOGUE_AGENT_PROMPT_format (known_words new_words : String) : String :=
  "DIALOGUE_AGENT_PROMPT known_words=" ++ known_words
    ++ " new_words=" ++ new_words

/-- Replace the stored session of `user_id` (by-reference mutation of the
object returned by `get_session`). -/
def SessionRegistry.setSession (registry : SessionRegistry) (user_id : String)
    (s : UserSession) : SessionRegistry :=
  registry.map (fun p => if p.1 == user_id then (p.1, s) else p)

/-- `services.llm_service.get_dialogue_response` (`src/services/llm_service.py`
lines 34-75): looks the session up, lazily builds and stores the dialogue
agent from the formatted prompt when the session has none, then runs the
agent on the student response and history (`run` models
`dialogue_agent.run`, keyed by the agent, prompt and history: the run
result, or the message of a raised exception); any exception is re-raised
as `RuntimeError("dialogue_agent failed: ...")`.  The registry after the
call is returned alongside, since session mutation is by reference. -/
def get_dialogue_response (registry : SessionRegistry) (user_id : String)
    (known_words new_words : List String) (student_response : String)
    (dialogue_history : List String)
    (run : DialogueAgent → String → List String →
      Except String AgentRunResult) :
    Except String (String × List String) × SessionRegistry :=
  let r0 := get_session registry user_id
  let session := r0.1
  let registry1 := r0.2
  let r1 :=
    match session.dialogue_agent with
    | some a => (a, registry1)
    | none =>
        let updated_dialogue_agent_prompt :=
          DIALOGUE_AGENT_PROMPT_format (json_dumps known_words)
            (json_dumps new_words)
        let a := create_dialogue_agent updated_dialogue_agent_prompt
        let session' := { session with dialogue_agent := some a }
        (a, registry1.setSession user_id session')
  let dialogue_agent := r1.1
  let registry2 := r1.2
  match run dialogue_agent student_response dialogue_history with
  | .error e => (.error ("dialogue_agent failed: " ++ e), registry2)
  | .ok result => (.ok (result.output, result.all_messages), registry2)

/-! ## Theorems -/

/-- C1, counterexample: the claim says every mismatch case returns 403, but
when user A deletes a word owned by user B the endpoint looks the id up in
A's own word list, misses, and returns 404 — not 403. -/
theorem C1_delete_counterexample :
    ("userA" : String) ≠ "userB" ∧
    (delete_word_endpoint
        [{ id := "w1", user_id := "userB", word := "chat",
           translation := "cat", «example» := "Le chat dort.",
           created_at := 0 }]
        "w1" ⟨"userA"⟩).1 = .httpError 404 "Word not found" ∧
    (delete_word_endpoint
        [{ id := "w1", user_id := "userB", word := "chat",
           translation := "cat", «example» := "Le chat dort.",
           created_at := 0 }]
        "w1" ⟨"userA"⟩).1.status ≠ 403 := by
  refine ⟨by decide, rfl, by decide⟩

/-- C1, amended: for distinct users A ≠ B, reading B's list, creating a word
whose `user_id` is B, and updating a word owned by B are all refused with
403; deleting a word owned by B is refused with 404 (it is absent from A's
own list), not 403. -/
theorem C1_cross_user_refusal (store : WordStore) (word_id fresh_id : String)
    (updates : WordUpdate) (wc : WordCreate) (A B : String) (w : Word)
    (now : Nat)
    (hAB : A ≠ B)
    (hwc : wc.user_id = B)
    (hfind : store.find? (fun x => x.id == word_id) = some w)
    (hown : w.user_id = B)
    (honly : ∀ x ∈ store, x.id = word_id → x.user_id = B) :
    (get_user_words_endpoint store B ⟨A⟩).status = 403 ∧
    (create_word_endpoint store wc ⟨A⟩ fresh_id now).1.status = 403 ∧
    (update_word_endpoint store word_id updates ⟨A⟩).1.status = 403 ∧
    (delete_word_endpoint store word_id ⟨A⟩).1.status = 404 := by
  refine ⟨?_, ?_, ?_, ?_⟩
  · simp [get_user_words_endpoint, bne_iff_ne, hAB, ApiResult.status]
  · simp [create_word_endpoint, hwc, bne_iff_ne, hAB, ApiResult.status]
  · simp only [update_word_endpoint, update_word, hfind]
    have hne : w.user_id ≠ A := by rw [hown]; exact fun h => hAB h.symm
    simp [hne, ApiResult.status]
  · have hnone : (get_user_words store A).find?
        (fun x => x.id == word_id) = none := by
      rw [List.find?_eq_none]
      intro x hx
      rcases List.mem_filter.mp hx with ⟨hmem, hA⟩
      intro hid
      have hxid : x.id = word_id := by simpa using hid
      have hxB : x.user_id = B := honly x hmem hxid
      have hxA : x.user_id = A := by simpa using hA
      exact hAB (hxA ▸ hxB)
    simp [delete_word_endpoint, hnone, ApiResult.status]

/-- C1, witness for `C1_cross_user_refusal` at a concrete store with one
word owned by user B and requests authenticated as user A. -/
theorem C1_cross_user_refusal_witness :
    (get_user_words_endpoint
        [{ id := "w1", user_id := "userB", word := "chat",
           translation := "cat", «example» := "Le chat dort.",
           created_at := 0 }] "userB" ⟨"userA"⟩).status = 403 ∧
    (create_word_endpoint
        [{ id := "w1", user_id := "userB", word := "chat",
           translation := "cat", «example» := "Le chat dort.",
           created_at := 0 }]
        { user_id := "userB", word := "chien", translation := "dog",
          «example» := "Le chien aboie." } ⟨"userA"⟩ "w2" 1).1.status = 403 ∧
    (update_word_endpoint
        [{ id := "w1", user_id := "userB", word := "chat",
           translation := "cat", «example» := "Le chat dort.",
           created_at := 0 }]
        "w1" ⟨none, none, none⟩ ⟨"userA"⟩).1.status = 403 ∧
    (delete_word_endpoint
        [{ id := "w1", user_id := "userB", word := "chat",
           translation := "cat", «example» := "Le chat dort.",
           created_at := 0 }] "w1" ⟨"userA"⟩).1.status = 404 :=
  C1_cross_user_refusal
    [{ id := "w1", user_id := "userB", word := "chat",
       translation := "cat", «example» := "Le chat dort.", created_at := 0 }]
    "w1" "w2" ⟨none, none, none⟩
    { user_id := "userB", word := "chien", translation := "dog",
      «example» := "Le chien aboie." }
    "userA" "userB"
    { id := "w1", user_id := "userB", word := "chat",
      translation := "cat", «example» := "Le chat dort.", created_at := 0 }
    1 (by decide) rfl (by decide) rfl (by decide)

/-- C2: the claim says the API layer checks ownership before delegating, so
a PUT on a word owned by someone else leaves the word unmodified.  In the
source, `update_word_endpoint` calls the store's `update_word` *before* the
ownership comparison: with a store holding word `w1` owned by user B and an
update sent by user A, the response is the ownership 403 error, yet the
stored word's translation has been changed by the request. -/
theorem C2_update_mutates_before_ownership_check :
    (update_word_endpoint
        [{ id := "w1", user_id := "userB", word := "chat",
           translation := "cat", «example» := "Le chat dort.",
           created_at := 0 }]
        "w1" ⟨none, some "dog", none⟩ ⟨"userA"⟩).1 =
      .httpError 403 "Can only update your own words" ∧
    (update_word_endpoint
        [{ id := "w1", user_id := "userB", word := "chat",
           translation := "cat", «example» := "Le chat dort.",
           created_at := 0 }]
        "w1" ⟨none, some "dog", none⟩ ⟨"userA"⟩).2 =
      [{ id := "w1", user_id := "userB", word := "chat",
         translation := "dog", «example» := "Le chat dort.",
         created_at := 0 }] ∧
    ("dog" : String) ≠ "cat" := by
  refine ⟨rfl, rfl, by decide⟩

/-- C3: when the identity matches and the dialogue call succeeds,
`POST /dialogue` returns a `DialogueResponse` carrying the dialogue reply,
whatever the suggestion sub-call's underlying outcome is; and whenever the
sub-call's attribute read fails, the empty list is substituted for
`suggested_words` and no error is surfaced. -/
theorem chat_with_ai_returns_response_on_dialogue_success
    (message : DialogueMessage) (current_user : User) (resp : String)
    (suggestion_outcome : Except String WordSuggestion)
    (hmatch : current_user.user_id = message.user_id) :
    ∃ r : DialogueResponse,
      chat_with_ai message current_user (.ok resp) suggestion_outcome =
        .ok r ∧
      r.response = resp ∧
      (∀ e, (suggest_new_words_for_user message.user_id
            suggestion_outcome).attr_new_words = .error e →
        r.suggested_words = []) := by
  refine ⟨{ response := resp, suggested_words := [] }, ?_, rfl, fun _ _ => rfl⟩
  simp [chat_with_ai, hmatch, Coroutine.attr_new_words]

/-- C3, witness for `chat_with_ai_returns_response_on_dialogue_success` with
a matching identity, a successful dialogue reply, and a failing suggestion
outcome. -/
theorem chat_with_ai_returns_response_witness :
    ∃ r : DialogueResponse,
      chat_with_ai ⟨"u1", "Bonjour"⟩ ⟨"u1"⟩ (.ok "Salut !")
          (.error "agent down") = .ok r ∧
      r.response = "Salut !" ∧
      (∀ e, (suggest_new_words_for_user "u1"
            (.error "agent down")).attr_new_words = .error e →
        r.suggested_words = []) :=
  chat_with_ai_returns_response_on_dialogue_success
    ⟨"u1", "Bonjour"⟩ ⟨"u1"⟩ "Salut !" (.error "agent down") rfl

/-- C4: every successful `POST /dialogue` response carries the empty
`suggested_words` list: the endpoint calls the async
`suggest_new_words_for_user` without `await`, `.new_words` on the returned
coroutine always raises, and the fallback branch always runs — even when
the suggestion computation itself would have produced non-empty words. -/
theorem chat_with_ai_suggested_words_always_empty
    (message : DialogueMessage) (current_user : User) (resp : String)
    (suggestion_outcome : Except String WordSuggestion)
    (hmatch : current_user.user_id = message.user_id) :
    chat_with_ai message current_user (.ok resp) suggestion_outcome =
      .ok { response := resp, suggested_words := [] } := by
  simp [chat_with_ai, hmatch, Coroutine.attr_new_words]

/-- C4, witness for `chat_with_ai_suggested_words_always_empty`: even when
the suggestion computation would have delivered a non-empty word list, the
endpoint's response carries the empty list. -/
theorem chat_with_ai_suggested_words_always_empty_witness :
    chat_with_ai ⟨"u1", "Bonjour"⟩ ⟨"u1"⟩ (.ok "Salut !")
        (.ok { new_words := ["pomme", "livre", "chien"], usages := [] }) =
      .ok { response := "Salut !", suggested_words := [] } :=
  chat_with_ai_suggested_words_always_empty ⟨"u1", "Bonjour"⟩ ⟨"u1"⟩
    "Salut !" (.ok { new_words := ["pomme", "livre", "chien"], usages := [] })
    rfl

/-- C5: when no stored word has the requested id (in particular on a second
delete of an already-deleted id) and the store lookup succeeds — lookups in
the model always succeed — `DELETE /words/{word_id}` returns 404, never
500. -/
theorem delete_word_endpoint_missing_id_404 (store : WordStore)
    (word_id : String) (current_user : User)
    (habsent : ∀ w ∈ store, w.id ≠ word_id) :
    (delete_word_endpoint store word_id current_user).1 =
      .httpError 404 "Word not found" ∧
    (delete_word_endpoint store word_id current_user).1.status ≠ 500 := by
  have hnone : (get_user_words store current_user.user_id).find?
      (fun x => x.id == word_id) = none := by
    rw [List.find?_eq_none]
    intro x hx
    have hmem : x ∈ store := (List.mem_filter.mp hx).1
    simpa using habsent x hmem
  constructor
  · simp [delete_word_endpoint, hnone]
  · simp [delete_word_endpoint, hnone, ApiResult.status]

/-- C5, witness for `delete_word_endpoint_missing_id_404`: a second delete
of an id just removed — the store holds only a different word. -/
theorem delete_word_endpoint_missing_id_404_witness :
    (delete_word_endpoint
        [{ id := "w2", user_id := "u1", word := "chien",
           translation := "dog", «example» := "Le chien aboie.",
           created_at := 0 }] "w1" ⟨"u1"⟩).1 =
      .httpError 404 "Word not found" ∧
    (delete_word_endpoint
        [{ id := "w2", user_id := "u1", word := "chien",
           translation := "dog", «example» := "Le chien aboie.",
           created_at := 0 }] "w1" ⟨"u1"⟩).1.status ≠ 500 :=
  delete_word_endpoint_missing_id_404
    [{ id := "w2", user_id := "u1", word := "chien", translation := "dog",
       «example» := "Le chien aboie.", created_at := 0 }]
    "w1" ⟨"u1"⟩ (by decide)

/-- C6: when a word with the requested id exists but is owned by a
different user, `PUT /words/{word_id}` returns 403 — not 404 and not
500. -/
theorem update_word_endpoint_foreign_owner_403 (store : WordStore)
    (word_id : String) (updates : WordUpdate) (current_user : User)
    (w : Word)
    (hfind : store.find? (fun x => x.id == word_id) = some w)
    (hdiff : w.user_id ≠ current_user.user_id) :
    (update_word_endpoint store word_id updates current_user).1 =
      .httpError 403 "Can only update your own words" ∧
    (update_word_endpoint store word_id updates current_user).1.status =
      403 := by
  constructor
  · simp [update_word_endpoint, update_word, hfind, hdiff]
  · simp [update_word_endpoint, update_word, hfind, hdiff, ApiResult.status]

/-- C6, witness for `update_word_endpoint_foreign_owner_403`: word `w1`
exists and is owned by user B; the caller is user A. -/
theorem update_word_endpoint_foreign_owner_403_witness :
    (update_word_endpoint
        [{ id := "w1", user_id := "userB", word := "chat",
           translation := "cat", «example» := "Le chat dort.",
           created_at := 0 }]
        "w1" ⟨some "chatte", none, none⟩ ⟨"userA"⟩).1 =
      .httpError 403 "Can only update your own words" ∧
    (update_word_endpoint
        [{ id := "w1", user_id := "userB", word := "chat",
           translation := "cat", «example» := "Le chat dort.",
           created_at := 0 }]
        "w1" ⟨some "chatte", none, none⟩ ⟨"userA"⟩).1.status = 403 :=
  update_word_endpoint_foreign_owner_403
    [{ id := "w1", user_id := "userB", word := "chat",
       translation := "cat", «example» := "Le chat dort.", created_at := 0 }]
    "w1" ⟨some "chatte", none, none⟩ ⟨"userA"⟩
    { id := "w1", user_id := "userB", word := "chat",
      translation := "cat", «example» := "Le chat dort.", created_at := 0 }
    rfl (by decide)

/-- Helper: mapping a left inverse over a `filterMap` yields a sublist of
the original list. -/
theorem map_filterMap_sublist {α β : Type} (f : α → Option β) (m : β → α)
    (h : ∀ a b, f a = some b → m b = a) :
    ∀ l : List α, List.Sublist ((l.filterMap f).map m) l := by
  intro l
  induction l with
  | nil => simp
  | cons a l ih =>
      cases hfa : f a with
      | none =>
          rw [List.filterMap_cons_none hfa]
          exact ih.cons a
      | some b =>
          rw [List.filterMap_cons_some hfa, List.map_cons, h a b hfa]
          exact ih.cons₂ a

/-- C7: when the identity matches and the suggestion service succeeds but
none of the suggested words has a usage entry, `GET /new-words/{user_id}`
returns the empty list with a success status, not an error; generally,
words without a usage entry are skipped, so every success returns at most
one entry per suggested word. -/
theorem get_new_words_endpoint_no_usages_empty (user_id : String)
    (current_user : User) (ws : WordSuggestion) (now : Nat)
    (hmatch : current_user.user_id = user_id)
    (hnousage : ∀ w ∈ ws.new_words, ws.usagesGet w = none) :
    get_new_words_endpoint user_id current_user (.ok ws) now = .ok [] ∧
    ∀ ws' : WordSuggestion,
      ∃ l, get_new_words_endpoint user_id current_user (.ok ws') now =
          .ok l ∧
        l.length ≤ ws'.new_words.length := by
  constructor
  · have hnil : new_word_objs user_id ws now = [] := by
      rw [new_word_objs, List.filterMap_eq_nil_iff]
      intro w hw
      rw [hnousage w hw]
      rfl
    simp [get_new_words_endpoint, hmatch, hnil]
  · intro ws'
    refine ⟨new_word_objs user_id ws' now, ?_, ?_⟩
    · simp [get_new_words_endpoint, hmatch]
    · exact List.length_filterMap_le _ _

/-- C7, witness for `get_new_words_endpoint_no_usages_empty`: the service
suggests three words but its usages mapping is empty. -/
theorem get_new_words_endpoint_no_usages_empty_witness :
    get_new_words_endpoint "u1" ⟨"u1"⟩
        (.ok { new_words := ["pomme", "livre", "chien"], usages := [] }) 0 =
      .ok [] ∧
    ∀ ws' : WordSuggestion,
      ∃ l, get_new_words_endpoint "u1" ⟨"u1"⟩ (.ok ws') 0 = .ok l ∧
        l.length ≤ ws'.new_words.length :=
  get_new_words_endpoint_no_usages_empty "u1" ⟨"u1"⟩
    { new_words := ["pomme", "livre", "chien"], usages := [] } 0
    rfl (by decide)

/-- C8: every entry of a successful `GET /new-words/{user_id}` response is
Word-shaped with a synthetic id `"new_" ++ word`, the path `user_id`, the
translation and example taken from the word's usage entry, and the entries
follow the order of the suggestion's `new_words` sequence. -/
theorem get_new_words_endpoint_entry_shape (user_id : String)
    (current_user : User) (ws : WordSuggestion) (now : Nat)
    (hmatch : current_user.user_id = user_id) :
    ∃ l, get_new_words_endpoint user_id current_user (.ok ws) now = .ok l ∧
      (∀ e ∈ l, ∃ w usage, w ∈ ws.new_words ∧ ws.usagesGet w = some usage ∧
        e.id = "new_" ++ w ∧ e.user_id = user_id ∧ e.word = w ∧
        e.translation = usage.translation ∧ e.«example» = usage.fr) ∧
      List.Sublist (l.map (fun e => e.word)) ws.new_words := by
  refine ⟨new_word_objs user_id ws now, ?_, ?_, ?_⟩
  · simp [get_new_words_endpoint, hmatch]
  · intro e he
    rw [new_word_objs, List.mem_filterMap] at he
    rcases he with ⟨w, hw, hsome⟩
    rcases Option.map_eq_some'.mp hsome with ⟨usage, husage, he⟩
    exact ⟨w, usage, hw, husage, by rw [← he], by rw [← he], by rw [← he],
      by rw [← he], by rw [← he]⟩
  · rw [new_word_objs]
    apply map_filterMap_sublist
    intro a b hab
    rcases Option.map_eq_some'.mp hab with ⟨usage, _, hb⟩
    rw [← hb]

/-- C8, witness for `get_new_words_endpoint_entry_shape` at a concrete
suggestion with one usage entry present and one missing. -/
theorem get_new_words_endpoint_entry_shape_witness :
    ∃ l, get_new_words_endpoint "u1" ⟨"u1"⟩
        (.ok { new_words := ["pomme", "livre"],
               usages := [("pomme", { fr := "Je mange une pomme.",
                                      translation := "apple" })] }) 7 =
        .ok l ∧
      (∀ e ∈ l, ∃ w usage,
        w ∈ ({ new_words := ["pomme", "livre"],
               usages := [("pomme", { fr := "Je mange une pomme.",
                                      translation := "apple" })] } :
            WordSuggestion).new_words ∧
        ({ new_words := ["pomme", "livre"],
           usages := [("pomme", { fr := "Je mange une pomme.",
                                  translation := "apple" })] } :
            WordSuggestion).usagesGet w = some usage ∧
        e.id = "new_" ++ w ∧ e.user_id = "u1" ∧ e.word = w ∧
        e.translation = usage.translation ∧ e.«example» = usage.fr) ∧
      List.Sublist (l.map (fun e => e.word))
        ({ new_words := ["pomme", "livre"],
           usages := [("pomme", { fr := "Je mange une pomme.",
                                  translation := "apple" })] } :
            WordSuggestion).new_words :=
  get_new_words_endpoint_entry_shape "u1" ⟨"u1"⟩
    { new_words := ["pomme", "livre"],
      usages := [("pomme", { fr := "Je mange une pomme.",
                             translation := "apple" })] } 7 rfl

/-- C9: `suggest_new_words` propagates a failing agent run as a runtime
error wrapping the cause, propagates a failing JSON parse of a successful
run's output the same way, and returns the parsed suggestion when both
succeed — no retry, no partial result. -/
theorem suggest_new_words_error_wrapping
    (agent_run : Except String AgentRunResult)
    (parse : String → Except String WordSuggestion) :
    (∀ e, agent_run = .error e →
      suggest_new_words agent_run parse =
        .error ("words_agent failed: " ++ e)) ∧
    (∀ r, agent_run = .ok r →
      (∀ e, parse r.output = .error e →
        suggest_new_words agent_run parse =
          .error ("words_agent failed: " ++ e)) ∧
      (∀ ws, parse r.output = .ok ws →
        suggest_new_words agent_run parse = .ok ws)) := by
  refine ⟨fun e he => ?_, fun r hr => ⟨fun e he => ?_, fun ws hws => ?_⟩⟩
  · simp [suggest_new_words, he]
  · simp [suggest_new_words, hr, he]
  · simp [suggest_new_words, hr, hws]

/-- C9, witness for `suggest_new_words_error_wrapping`: a failing agent run
is wrapped, and a successful run whose output parses is returned as is. -/
theorem suggest_new_words_error_wrapping_witness :
    suggest_new_words (.error "timeout") (fun _ => .error "unused") =
      .error ("words_agent failed: timeout") ∧
    suggest_new_words (.ok ⟨"{...}", []⟩)
        (fun _ => .ok { new_words := ["pomme"], usages := [] }) =
      .ok { new_words := ["pomme"], usages := [] } :=
  ⟨(suggest_new_words_error_wrapping (.error "timeout")
      (fun _ => .error "unused")).1 "timeout" rfl,
   ((suggest_new_words_error_wrapping (.ok ⟨"{...}", []⟩)
      (fun _ => .ok { new_words := ["pomme"], usages := [] })).2
      ⟨"{...}", []⟩ rfl).2 { new_words := ["pomme"], usages := [] } rfl⟩

/-- Helper: the registry returned by `get_session` holds an entry for the
requested user id. -/
theorem get_session_key_isSome (registry : SessionRegistry) (uid : String) :
    (((get_session registry uid).2).find? (fun p => p.1 == uid)).isSome := by
  unfold get_session
  cases hfind : registry.find? (fun p => p.1 == uid) with
  | some p => simp [hfind]
  | none =>
      simp only [List.find?_append, hfind]
      simp [List.find?]

/-- Helper: when the stored session already holds an agent, `get_session`
found an existing entry and left the registry unchanged. -/
theorem get_session_agent_some_registry_id (registry : SessionRegistry)
    (uid : String) (a : DialogueAgent)
    (h : (get_session registry uid).1.dialogue_agent = some a) :
    (get_session registry uid).2 = registry := by
  unfold get_session at h ⊢
  cases hfind : registry.find? (fun p => p.1 == uid) with
  | some p => simp [hfind]
  | none => rw [hfind] at h; simp at h

/-- Helper: after `setSession`, looking the user id up finds the new
session, provided the registry held an entry for that id. -/
theorem find?_setSession (uid : String) (s : UserSession) :
    ∀ registry : SessionRegistry,
      (registry.find? (fun p => p.1 == uid)).isSome →
      ((SessionRegistry.setSession registry uid s).find?
          (fun p => p.1 == uid)).map (fun p => p.2) = some s := by
  intro registry
  induction registry with
  | nil => simp [List.find?]
  | cons p rest ih =>
      intro h
      cases hp : (p.1 == uid) with
      | true =>
          simp [SessionRegistry.setSession, List.find?, hp]
      | false =>
          have hrest : (rest.find? (fun q => q.1 == uid)).isSome := by
            simpa [List.find?, hp] using h
          simpa [SessionRegistry.setSession, List.find?, hp] using ih hrest

/-- C10: the dialogue service lazily builds the agent — when the session
has none, a fresh agent made from the fixed prompt template formatted with
the JSON-serialized word lists is stored in the session; when the session
already holds an agent it is reused and the registry is left unchanged (so
the prompt stays fixed at first use); in both cases a failing agent run is
raised as a runtime error wrapping the cause, and a successful run returns
the output with the updated history. -/
theorem get_dialogue_response_session_spec (registry : SessionRegistry)
    (user_id : String) (known_words new_words : List String)
    (student_response : String) (dialogue_history : List String)
    (run : DialogueAgent → String → List String →
      Except String AgentRunResult) :
    ((get_session registry user_id).1.dialogue_agent = none →
      (((get_dialogue_response registry user_id known_words new_words
            student_response dialogue_history run).2.find?
          (fun p => p.1 == user_id)).map
        (fun p => p.2.dialogue_agent)) =
        some (some (create_dialogue_agent (DIALOGUE_AGENT_PROMPT_format
          (json_dumps known_words) (json_dumps new_words)))) ∧
      (∀ e, run (create_dialogue_agent (DIALOGUE_AGENT_PROMPT_format
            (json_dumps known_words) (json_dumps new_words)))
            student_response dialogue_history = .error e →
        (get_dialogue_response registry user_id known_words new_words
            student_response dialogue_history run).1 =
          .error ("dialogue_agent failed: " ++ e)) ∧
      (∀ res, run (create_dialogue_agent (DIALOGUE_AGENT_PROMPT_format
            (json_dumps known_words) (json_dumps new_words)))
            student_response dialogue_history = .ok res →
        (get_dialogue_response registry user_id known_words new_words
            student_response dialogue_history run).1 =
          .ok (res.output, res.all_messages))) ∧
    (∀ a, (get_session registry user_id).1.dialogue_agent = some a →
      (get_dialogue_response registry user_id known_words new_words
          student_response dialogue_history run).2 = registry ∧
      (∀ e, run a student_response dialogue_history = .error e →
        (get_dialogue_response registry user_id known_words new_words
            student_response dialogue_history run).1 =
          .error ("dialogue_agent failed: " ++ e)) ∧
      (∀ res, run a student_response dialogue_history = .ok res →
        (get_dialogue_response registry user_id known_words new_words
            student_response dialogue_history run).1 =
          .ok (res.output, res.all_messages))) := by
  have hmap : ∀ (o : Option (String × UserSession)),
      o.map (fun p => p.2.dialogue_agent) =
        (o.map (fun p => p.2)).map (fun s => s.dialogue_agent) := by
    intro o; cases o <;> rfl
  constructor
  · intro hnone
    have hset := find?_setSession user_id
      { dialogue_agent := some (create_dialogue_agent
          (DIALOGUE_AGENT_PROMPT_format (json_dumps known_words)
            (json_dumps new_words))),
        message_history := (get_session registry user_id).1.message_history }
      ((get_session registry user_id).2)
      (get_session_key_isSome registry user_id)
    simp only [get_dialogue_response, hnone]
    refine ⟨?_, fun e he => ?_, fun res hres => ?_⟩
    · cases hrun : run (create_dialogue_agent (DIALOGUE_AGENT_PROMPT_format
          (json_dumps known_words) (json_dumps new_words)))
          student_response dialogue_history with
      | error e =>
          simp only [hrun]
          rw [hmap, hset]
          rfl
      | ok res =>
          simp only [hrun]
          rw [hmap, hset]
          rfl
    · simp [he]
    · simp [hres]
  · intro a ha
    simp only [get_dialogue_response, ha]
    refine ⟨?_, fun e he => ?_, fun res hres => ?_⟩
    · cases hrun : run a student_response dialogue_history with
      | error e =>
          simp only [hrun]
          exact get_session_agent_some_registry_id registry user_id a ha
      | ok res =>
          simp only [hrun]
          exact get_session_agent_some_registry_id registry user_id a ha
    · simp [he]
    · simp [hres]

/-- C10, witness for `get_dialogue_response_session_spec`: a first call on
an empty registry stores the freshly built agent and returns the run's
output and history. -/
theorem get_dialogue_response_session_spec_witness :
    (((get_dialogue_response [] "u1" ["chat"] ["pomme"] "Bonjour" []
          (fun _ _ _ => .ok ⟨"Salut !", ["m1"]⟩)).2.find?
        (fun p => p.1 == "u1")).map
      (fun p => p.2.dialogue_agent)) =
      some (some (create_dialogue_agent (DIALOGUE_AGENT_PROMPT_format
        (json_dumps ["chat"]) (json_dumps ["pomme"])))) ∧
    (get_dialogue_response [] "u1" ["chat"] ["pomme"] "Bonjour" []
        (fun _ _ _ => .ok ⟨"Salut !", ["m1"]⟩)).1 =
      .ok ("Salut !", ["m1"]) := by
  have h := get_dialogue_response_session_spec [] "u1" ["chat"] ["pomme"]
    "Bonjour" [] (fun _ _ _ => .ok ⟨"Salut !", ["m1"]⟩)
  have h1 := h.1 rfl
  exact ⟨h1.1, h1.2.2 ⟨"Salut !", ["m1"]⟩ rfl⟩

end LanguageTutor
